import Mathlib

/-!
Shallow embedding of the time-tots clock application: the minute-count time
model, the answer-tolerance check, the pointer-angle mapper, the drag-to-time
resolvers, the quiz-question fallback, and the quiz UI state machine.
JavaScript numeric semantics are made explicit: the binary `%` operator
truncates toward zero (`Int.tmod`) and `Math.floor` of a quotient is floor
division (`Int.fdiv`); `Math.round` rounds half toward positive infinity,
which agrees with Mathlib's `round` on `ℚ`.
-/

namespace TimeTots

/-- JavaScript's `%` operator on integers: remainder truncated toward zero. -/
def jsMod (a b : ℤ) : ℤ := Int.tmod a b

/-- JavaScript's `Math.floor(a / b)` on integers: floor division. -/
def jsFloorDiv (a b : ℤ) : ℤ := Int.fdiv a b

/-- The modulo-1440 normalization step `totalMinutes % 1440` used by
`DigitalClock` (src/components/DigitalClock.tsx line 9, code comment:
"ensure strict 0-1439") and by `submitAnswer` (src/App.tsx line 48). -/
def normalizeMinutes (totalMinutes : ℤ) : ℤ := jsMod totalMinutes 1440

/-- The display tuple computed by `DigitalClock`
(src/components/DigitalClock.tsx lines 8-16): normalized minutes, then
`hours = Math.floor(n / 60)`, `minutes = n % 60`, `period` is `"PM"` when
`hours >= 12` else `"AM"`, `displayHour = hours % 12` with `0` shown as `12`.
Returned as (displayHour, minutes, period). -/
def digitalClockFields (totalMinutes : ℤ) : ℤ × ℤ × String :=
  let normalizedMinutes := jsMod totalMinutes 1440
  let hours := jsFloorDiv normalizedMinutes 60
  let minutes := jsMod normalizedMinutes 60
  let period := if hours ≥ 12 then "PM" else "AM"
  let displayHour0 := jsMod hours 12
  let displayHour := if displayHour0 = 0 then 12 else displayHour0
  (displayHour, minutes, period)

/-- The local acceptance check of `submitAnswer` (src/App.tsx lines 47-67):
normalize the current time, form the target's minutes-since-midnight, take
the absolute difference, wrap it, and accept when the wrapped difference is
at most 2. -/
def submitDecision (totalMinutes targetHour targetMinute : ℤ) : Bool :=
  let currentNorm := jsMod totalMinutes 1440
  let targetTotal := targetHour * 60 + targetMinute
  let diff := |currentNorm - targetTotal|
  let diffWrapped := min diff (1440 - diff)
  decide (diffWrapped ≤ 2)

/-! ### AnalogClock geometry and drag resolution (src/unnamed/part_000) -/

/-- Clock-face center x coordinate (src/unnamed/part_000 line 14). -/
def CX : ℝ := 200

/-- Clock-face center y coordinate (src/unnamed/part_000 line 15). -/
def CY : ℝ := 200

/-- `Math.atan2 y x`: the argument of the complex number `x + y i`,
in `(-π, π]`, with `atan2 0 0 = 0`, matching the JavaScript function. -/
noncomputable def atan2 (y x : ℝ) : ℝ := Complex.arg ⟨x, y⟩

/-- `getPointerAngle` (src/unnamed/part_000 lines 31-49) on face coordinates:
`theta = atan2(y - CY, x - CX) * 180/π + 90`, and if `theta < 0` then
`theta + 360`. -/
noncomputable def getPointerAngle (x y : ℝ) : ℝ :=
  if atan2 (y - CY) (x - CX) * (180 / Real.pi) + 90 < 0 then
    atan2 (y - CY) (x - CX) * (180 / Real.pi) + 90 + 360
  else
    atan2 (y - CY) (x - CX) * (180 / Real.pi) + 90

/-- The candidate minute of a minute-hand drag
(src/unnamed/part_000 lines 66-67): `mins = Math.round(angle / 6)`, and if
`mins === 60` then `mins = 0`.  Mathlib's `round` on `ℚ` is
`⌊q + 1/2⌋`, exactly JavaScript's `Math.round`. -/
def minuteCandidate (angle : ℚ) : ℤ :=
  let mins := round (angle / 6)
  if mins = 60 then 0 else mins

/-- The minute-hand branch of `handlePointerMove`
(src/unnamed/part_000 lines 62-106): keep the current hour component, take
the candidate minute, apply the crossing heuristic
(`oldMins > 45 && mins < 15` adds 60; `oldMins < 15 && mins > 45`
subtracts 60), then normalize with one conditional `+= 1440` and one
conditional `-= 1440`. -/
def resolveMinuteDrag (totalMinutes : ℤ) (angle : ℚ) : ℤ :=
  let mins := minuteCandidate angle
  let currentTotalHours := jsFloorDiv totalMinutes 60
  let oldMins := jsMod totalMinutes 60
  let newTotalMinutes := currentTotalHours * 60 + mins
  let adjusted :=
    if 45 < oldMins ∧ mins < 15 then newTotalMinutes + 60
    else if oldMins < 15 ∧ 45 < mins then newTotalMinutes - 60
    else newTotalMinutes
  let wrapped := if adjusted < 0 then adjusted + 1440 else adjusted
  if 1440 ≤ wrapped then wrapped - 1440 else wrapped

/-- The hour-hand branch of `handlePointerMove`
(src/unnamed/part_000 lines 108-125): `minutesFrom12 = angle * 2`,
`newTotalMinutes = Math.round(minutesFrom12)`, add 720 when the current
time is PM (`totalMinutes >= 720`), then one conditional `-= 1440`. -/
def resolveHourDrag (totalMinutes : ℤ) (angle : ℚ) : ℤ :=
  let minutesFrom12 := angle * 2
  let isPm := 720 ≤ totalMinutes
  let base := round minutesFrom12
  let withHalf := if isPm then base + 720 else base
  if 1440 ≤ withHalf then withHalf - 1440 else withHalf

/-! ### Quiz question service (src/services/geminiService.ts) -/

/-- A quiz question (src/types.ts lines 17-22). -/
structure QuizQuestion where
  questionText : String
  targetHour : ℤ
  targetMinute : ℤ
  hint : String
deriving DecidableEq, Repr

/-- The hardcoded fallback question of `generateTimeQuestion`
(src/services/geminiService.ts lines 48-53). -/
def FALLBACK_QUESTION : QuizQuestion :=
  { questionText := "Can you set the clock to 12:00?"
    targetHour := 12
    targetMinute := 0
    hint := "Both hands point up!" }

/-- The outcome of the network request made by `generateTimeQuestion`:
either the awaited call throws (transport/API failure), or it returns a
response whose `text` field may be absent. -/
inductive FetchResult where
  | transportError : FetchResult
  | response : Option String → FetchResult
deriving DecidableEq, Repr

/-- `generateTimeQuestion` (src/services/geminiService.ts lines 7-55),
parameterized by the JSON decoding of a response body (`JSON.parse` plus the
cast to `QuizQuestion`; `none` models a parse exception).  A thrown error is
caught and replaced by the fallback question; `if (!text) return null;`
yields `null` both when the text field is absent and when it is the empty
string (both are falsy in JavaScript); otherwise the parsed value is
returned, with a parse exception also caught into the fallback. -/
def generateTimeQuestion (parse : String → Option QuizQuestion) :
    FetchResult → Option QuizQuestion
  | FetchResult.transportError => some FALLBACK_QUESTION
  | FetchResult.response none => none
  | FetchResult.response (some text) =>
    if text = "" then none
    else
      match parse text with
      | none => some FALLBACK_QUESTION
      | some q => some q

/-! ### App quiz state machine (src/App.tsx) -/

/-- Game mode (src/types.ts lines 7-10). -/
inductive GameMode where
  | EXPLORE : GameMode
  | QUIZ : GameMode
deriving DecidableEq, Repr

/-- 10:10 AM (src/App.tsx line 10). -/
def INITIAL_TIME : ℤ := 10 * 60 + 10

/-- The React state of `App` (src/App.tsx lines 14-21), together with
counters of in-flight asynchronous requests: `pendingQuestion` counts
outstanding `generateTimeQuestion` calls and `pendingEval` outstanding
`checkAnswer` calls. -/
structure AppState where
  totalMinutes : ℤ
  mode : GameMode
  currentQuestion : Option QuizQuestion
  feedback : String
  isLoading : Bool
  isCorrect : Bool
  pendingQuestion : ℕ
  pendingEval : ℕ
deriving DecidableEq, Repr

/-- The initial state of `App`. -/
def initState : AppState :=
  { totalMinutes := INITIAL_TIME
    mode := GameMode.EXPLORE
    currentQuestion := none
    feedback := ""
    isLoading := false
    isCorrect := false
    pendingQuestion := 0
    pendingEval := 0 }

/-- `handleTimeChange` (src/App.tsx lines 24-30): set the new minutes,
reset `isCorrect`, clear the feedback. -/
def handleTimeChange (s : AppState) (newMinutes : ℤ) : AppState :=
  { s with totalMinutes := newMinutes, isCorrect := false, feedback := "" }

/-- The synchronous prefix of `startQuiz` (src/App.tsx lines 33-42), up to
the `await generateTimeQuestion()`: enter quiz mode, set the loading flag,
clear feedback and correctness, and put one question request in flight. -/
def startQuiz (s : AppState) : AppState :=
  { s with mode := GameMode.QUIZ, isLoading := true, feedback := "",
           isCorrect := false, pendingQuestion := s.pendingQuestion + 1 }

/-- `exitQuiz` (src/App.tsx lines 79-84): back to explore mode, drop the
question, clear feedback and correctness.  The loading flag and any
in-flight requests are untouched. -/
def exitQuiz (s : AppState) : AppState :=
  { s with mode := GameMode.EXPLORE, currentQuestion := none,
           feedback := "", isCorrect := false }

/-- The synchronous prefix of `submitAnswer` (src/App.tsx lines 44-77):
return unchanged without a question; otherwise accept (set `isCorrect`, show
the success feedback) when `submitDecision` holds, else reset `isCorrect`,
set the loading flag and put one evaluation request in flight. -/
def submitAnswer (s : AppState) : AppState :=
  match s.currentQuestion with
  | none => s
  | some q =>
    if submitDecision s.totalMinutes q.targetHour q.targetMinute then
      { s with isCorrect := true,
               feedback := "🎉 Correct! You are a time wizard!" }
    else
      { s with isCorrect := false, isLoading := true,
               pendingEval := s.pendingEval + 1 }

/-- UI events and asynchronous completions.  Click events carry the render
conditions of the corresponding controls as guards in `step`; `drag` is a
completed hand drag reported through `onTimeChange`. -/
inductive Event where
  | clickExplore : Event
  | clickChallenge : Event
  | clickSubmit : Event
  | clickNext : Event
  | clickHint : Event
  | questionResolve : Option QuizQuestion → Event
  | evalResolve : String → Event
  | drag : ℤ → Event
deriving DecidableEq, Repr

/-- One step of the quiz UI state machine (src/App.tsx lines 86-182):
* "Play & Explore" always runs `exitQuiz`;
* "Challenge Me!" runs `startQuiz` only when the mode is not QUIZ
  (line 104);
* "Check Answer" is rendered only in quiz mode with a question present and
  `isCorrect` false, and is disabled while `isLoading` (lines 150-158);
* "Next Question" is rendered only in quiz mode with a question present and
  `isCorrect` true, and runs `startQuiz` (lines 143-149);
* the hint button is rendered only in quiz mode with a question present and
  `isCorrect` false (lines 133-140);
* `questionResolve` is the resumption of `startQuiz` after its await
  (lines 39-41): store the result and clear the loading flag;
* `evalResolve` is the resumption of `submitAnswer` after its await
  (lines 73-75): show the feedback and clear the loading flag;
* `drag` runs `handleTimeChange`. -/
def step (s : AppState) : Event → AppState
  | Event.clickExplore => exitQuiz s
  | Event.clickChallenge =>
    if s.mode = GameMode.QUIZ then s else startQuiz s
  | Event.clickSubmit =>
    if s.mode = GameMode.QUIZ ∧ s.currentQuestion ≠ none ∧
        s.isCorrect = false ∧ s.isLoading = false then
      submitAnswer s
    else s
  | Event.clickNext =>
    if s.mode = GameMode.QUIZ ∧ s.currentQuestion ≠ none ∧
        s.isCorrect = true then
      startQuiz s
    else s
  | Event.clickHint =>
    match s.currentQuestion with
    | some q =>
      if s.mode = GameMode.QUIZ ∧ s.isCorrect = false then
        { s with feedback := q.hint }
      else s
    | none => s
  | Event.questionResolve result =>
    if 0 < s.pendingQuestion then
      { s with currentQuestion := result, isLoading := false,
               pendingQuestion := s.pendingQuestion - 1 }
    else s
  | Event.evalResolve msg =>
    if 0 < s.pendingEval then
      { s with feedback := msg, isLoading := false,
               pendingEval := s.pendingEval - 1 }
    else s
  | Event.drag m => handleTimeChange s m

/-- The state reached from `initState` by a list of events. -/
def run (events : List Event) : AppState := events.foldl step initState

/-- A state of the UI is reachable when some event sequence produces it. -/
def Reachable (s : AppState) : Prop := ∃ events, run events = s

/-- A concrete quiz question targeting 10:10, used in witnesses. -/
def sampleQuestion : QuizQuestion :=
  { questionText := "Can you set the clock to ten past ten?"
    targetHour := 10
    targetMinute := 10
    hint := "Both hands near the 10!" }

/-- A concrete quiz state showing `sampleQuestion` with the clock at 10:10,
ready for submission. -/
def sampleState : AppState :=
  { totalMinutes := 610
    mode := GameMode.QUIZ
    currentQuestion := some sampleQuestion
    feedback := ""
    isLoading := false
    isCorrect := false
    pendingQuestion := 0
    pendingEval := 0 }

/-! ### Helper lemmas -/

/-- On a nonnegative dividend and positive divisor, the JavaScript `%`
agrees with the mathematical remainder. -/
theorem jsMod_eq_emod (a b : ℤ) (ha : 0 ≤ a) (hb : 0 ≤ b) :
    jsMod a b = a % b := by
  unfold jsMod
  rw [Int.tmod_eq_emod] <;> omega

/-- On a nonnegative divisor, `Math.floor` of the quotient agrees with the
mathematical quotient. -/
theorem jsFloorDiv_eq_ediv (a b : ℤ) (hb : 0 ≤ b) :
    jsFloorDiv a b = a / b := by
  unfold jsFloorDiv
  rw [Int.fdiv_eq_ediv]
  omega

/-- `Math.round` of a nonnegative rational is nonnegative. -/
theorem round_nonneg_of_nonneg (q : ℚ) (h : 0 ≤ q) : 0 ≤ round q := by
  rw [round_eq]
  exact Int.floor_nonneg.mpr (by linarith)

/-- `Math.round` of a rational strictly below an integer is at most that
integer. -/
theorem round_le_of_lt_intCast (q : ℚ) (n : ℤ) (h : q < n) : round q ≤ n := by
  rw [round_eq]
  have hlt : q + 1 / 2 < ((n + 1 : ℤ) : ℚ) := by push_cast; linarith
  have := Int.floor_lt.mpr hlt
  omega

/-- For an angle in `[0, 360)`, the candidate minute of a minute-hand drag
lies in `[0, 59]`. -/
theorem minuteCandidate_mem (angle : ℚ) (h0 : 0 ≤ angle) (h1 : angle < 360) :
    0 ≤ minuteCandidate angle ∧ minuteCandidate angle < 60 := by
  have hq0 : (0 : ℚ) ≤ angle / 6 := by positivity
  have hq1 : angle / 6 < ((60 : ℤ) : ℚ) := by push_cast; linarith
  have hr0 : 0 ≤ round (angle / 6) := round_nonneg_of_nonneg _ hq0
  have hr1 : round (angle / 6) ≤ 60 := round_le_of_lt_intCast _ _ hq1
  simp only [minuteCandidate]
  split_ifs with h
  · omega
  · omega

/-! ### Claim theorems -/

/-- C3: the claimed normalization contract fails on negative inputs.  The
modulo-1440 step is the JavaScript `%`, which keeps the dividend's sign:
`normalize (-10) = -10`, which is negative, not the backward wrap `1430`
required by "maps any integer to [0,1439] ... correctly handling negative
inputs", even though the step is idempotent at this input. -/
theorem C3_normalize_negative_input :
    normalizeMinutes (-10) = -10 ∧
    normalizeMinutes (-10) ≠ 1430 ∧
    normalizeMinutes (-10) < 0 ∧
    normalizeMinutes (normalizeMinutes (-10)) = normalizeMinutes (-10) := by
  decide

/-- C4 counterexample: a response whose body is missing is a failure outcome
of the question request, yet `generateTimeQuestion` returns `none` (null)
rather than the fixed fallback question. -/
theorem C4_counterexample :
    generateTimeQuestion (fun _ => none) (FetchResult.response none) = none ∧
    (none : Option QuizQuestion) ≠ some FALLBACK_QUESTION := by
  exact ⟨rfl, by decide⟩

/-- C4 (amended): a thrown failure — transport error, or a parse error on a
present nonempty body — makes `generateTimeQuestion` return the fixed
fallback question with target 12:00 and hint "Both hands point up!", and
this is the only failure recovery; a response whose body is missing or
empty instead yields no question at all (`null`). -/
theorem C4_fallback_on_thrown_failures
    (parse : String → Option QuizQuestion) (text : String)
    (hparse : parse text = none) (hne : text ≠ "") :
    generateTimeQuestion parse FetchResult.transportError =
      some FALLBACK_QUESTION ∧
    generateTimeQuestion parse (FetchResult.response (some text)) =
      some FALLBACK_QUESTION ∧
    generateTimeQuestion parse (FetchResult.response none) = none ∧
    generateTimeQuestion parse (FetchResult.response (some "")) = none ∧
    FALLBACK_QUESTION.targetHour = 12 ∧
    FALLBACK_QUESTION.targetMinute = 0 ∧
    FALLBACK_QUESTION.hint = "Both hands point up!" := by
  refine ⟨rfl, ?_, rfl, ?_, rfl, rfl, rfl⟩
  · simp [generateTimeQuestion, hparse, hne]
  · simp [generateTimeQuestion]

/-- C4 witness: the amended fallback behaviour at the concrete decoder that
always fails to parse and a nonempty body. -/
theorem C4_fallback_witness :
    generateTimeQuestion (fun _ => none) FetchResult.transportError =
      some FALLBACK_QUESTION ∧
    generateTimeQuestion (fun _ => none) (FetchResult.response (some "x")) =
      some FALLBACK_QUESTION ∧
    generateTimeQuestion (fun _ => none) (FetchResult.response none) = none ∧
    generateTimeQuestion (fun _ => none) (FetchResult.response (some "")) =
      none ∧
    FALLBACK_QUESTION.targetHour = 12 ∧
    FALLBACK_QUESTION.targetMinute = 0 ∧
    FALLBACK_QUESTION.hint = "Both hands point up!" :=
  C4_fallback_on_thrown_failures (fun _ => none) "x" rfl (by decide)

/-- C5: the hour-hand drag does not always preserve the meridiem.  From
current time 0 (12:00 AM) and pointer angle 359.8° — inside the claimed
domain `[0, 360)` — `Math.round(359.8 * 2) = 720`, so the resolved time is
720 (12:00 PM): the drag flips AM to PM, contradicting both the claim and
the source comment "Let's stick to the current AM/PM half". -/
theorem C5_hour_drag_meridiem_flip :
    resolveHourDrag 0 (1799 / 5) = 720 ∧
    (0 : ℤ) < 720 ∧
    ¬ resolveHourDrag 0 (1799 / 5) < 720 ∧
    (0 : ℚ) ≤ 1799 / 5 ∧ (1799 / 5 : ℚ) < 360 := by
  have h : resolveHourDrag 0 (1799 / 5) = 720 := by
    norm_num [resolveHourDrag, round_eq]
  refine ⟨h, by norm_num, ?_, by norm_num, by norm_num⟩
  rw [h]
  norm_num

/-- C8: for any minute count in `[0, 1439]` with `hour = ⌊m / 60⌋`, the
digital display shows "AM" exactly when `hour < 12`, and the display hour is
`hour % 12` with `0` mapped to `12`. -/
theorem C8_display_fields (m : ℤ) (h0 : 0 ≤ m) (h1 : m < 1440) :
    ((digitalClockFields m).2.2 = "AM" ↔ m / 60 < 12) ∧
    (digitalClockFields m).1 =
      (if (m / 60) % 12 = 0 then 12 else (m / 60) % 12) := by
  have hnorm : jsMod m 1440 = m := by
    rw [jsMod_eq_emod m 1440 h0 (by norm_num)]
    omega
  have hdiv : jsFloorDiv m 60 = m / 60 :=
    jsFloorDiv_eq_ediv m 60 (by norm_num)
  have hmod12 : jsMod (m / 60) 12 = (m / 60) % 12 :=
    jsMod_eq_emod (m / 60) 12 (by omega) (by norm_num)
  simp only [digitalClockFields, hnorm, hdiv, hmod12]
  constructor
  · split_ifs with h
    · constructor
      · intro hcontra
        exact absurd hcontra (by decide)
      · intro hlt
        omega
    · constructor
      · intro _
        omega
      · intro _
        rfl
  · trivial

/-- C8 witness: at 10 minutes past midnight the display reads 12:10 AM, and
`0 / 60 = 0 < 12`. -/
theorem C8_display_fields_witness :
    (((digitalClockFields 10).2.2 = "AM" ↔ (10 : ℤ) / 60 < 12) ∧
      (digitalClockFields 10).1 =
        (if ((10 : ℤ) / 60) % 12 = 0 then 12 else ((10 : ℤ) / 60) % 12)) :=
  C8_display_fields 10 (by decide) (by decide)

/-- C1: in any quiz state with a question shown and submission enabled, the
submitted answer is accepted — `isCorrect` set and the success feedback
shown — exactly when the wraparound-aware difference
`min |diff| (1440 - |diff|)` between the submitted minutes-since-midnight
and the target's minutes-since-midnight is at most 2; in particular 23:59
against target 00:01 is accepted and 3:05 against target 3:00 is
rejected. -/
theorem C1_accept_iff_within_two (s : AppState) (q : QuizQuestion)
    (hmode : s.mode = GameMode.QUIZ) (hq : s.currentQuestion = some q)
    (hcor : s.isCorrect = false) (hload : s.isLoading = false)
    (ht0 : 0 ≤ s.totalMinutes) (ht1 : s.totalMinutes < 1440)
    (hH0 : 0 ≤ q.targetHour) (hH1 : q.targetHour ≤ 23)
    (hM0 : 0 ≤ q.targetMinute) (hM1 : q.targetMinute ≤ 59) :
    (((step s Event.clickSubmit).isCorrect = true ∧
        (step s Event.clickSubmit).feedback =
          "🎉 Correct! You are a time wizard!") ↔
      min |s.totalMinutes - (q.targetHour * 60 + q.targetMinute)|
          (1440 - |s.totalMinutes - (q.targetHour * 60 + q.targetMinute)|)
        ≤ 2) ∧
    submitDecision 1439 0 1 = true ∧
    submitDecision 185 3 0 = false := by
  refine ⟨?_, by decide, by decide⟩
  have hguard : s.mode = GameMode.QUIZ ∧ s.currentQuestion ≠ none ∧
      s.isCorrect = false ∧ s.isLoading = false := by
    refine ⟨hmode, ?_, hcor, hload⟩
    rw [hq]
    exact Option.some_ne_none q
  have hnorm : jsMod s.totalMinutes 1440 = s.totalMinutes := by
    rw [jsMod_eq_emod s.totalMinutes 1440 ht0 (by norm_num)]
    omega
  have hdec : submitDecision s.totalMinutes q.targetHour q.targetMinute =
      true ↔
      min |s.totalMinutes - (q.targetHour * 60 + q.targetMinute)|
          (1440 - |s.totalMinutes - (q.targetHour * 60 + q.targetMinute)|)
        ≤ 2 := by
    simp only [submitDecision, hnorm, decide_eq_true_iff]
  have hstep : step s Event.clickSubmit = submitAnswer s := by
    simp only [step]
    rw [if_pos hguard]
  rw [hstep]
  simp only [submitAnswer, hq]
  split_ifs with hd
  · constructor
    · intro _
      exact hdec.mp hd
    · intro _
      exact ⟨rfl, rfl⟩
  · constructor
    · rintro ⟨hc, -⟩
      exact absurd hc (by simp)
    · intro h2
      exact absurd (hdec.mpr h2) hd

/-- C1 witness: at the state showing target 10:10 with the clock at 10:10,
submission is accepted (difference 0), and the two boundary scenarios
evaluate as claimed. -/
theorem C1_accept_witness :
    (((step sampleState Event.clickSubmit).isCorrect = true ∧
        (step sampleState Event.clickSubmit).feedback =
          "🎉 Correct! You are a time wizard!") ↔
      min |sampleState.totalMinutes -
            (sampleQuestion.targetHour * 60 + sampleQuestion.targetMinute)|
          (1440 - |sampleState.totalMinutes -
            (sampleQuestion.targetHour * 60 + sampleQuestion.targetMinute)|)
        ≤ 2) ∧
    submitDecision 1439 0 1 = true ∧
    submitDecision 185 3 0 = false :=
  C1_accept_iff_within_two sampleState sampleQuestion rfl rfl rfl rfl
    (by decide) (by decide) (by decide) (by decide) (by decide) (by decide)

/-- C2 counterexample: at current time 23:58 (1438 minutes) with a drag
angle of 18° — candidate minute 3 — the code's resolved time is 3 (00:03),
not the unnormalized value `23 * 60 + 3 + 60 = 1443` the claim computes, and
the resolved hour is 0, not `23 + 1`. -/
theorem C2_counterexample :
    jsMod 1438 60 = 58 ∧
    minuteCandidate 18 = 3 ∧
    resolveMinuteDrag 1438 18 = 3 ∧
    jsFloorDiv 1438 60 * 60 + minuteCandidate 18 + 60 = 1443 ∧
    (3 : ℤ) ≠ 1443 ∧
    jsFloorDiv (resolveMinuteDrag 1438 18) 60 = 0 ∧
    jsFloorDiv 1438 60 + 1 = 24 ∧
    (0 : ℤ) ≠ 24 := by
  have hmc : minuteCandidate 18 = 3 := by
    norm_num [minuteCandidate, round_eq]
  have hres : resolveMinuteDrag 1438 18 = 3 := by
    norm_num [resolveMinuteDrag, minuteCandidate, round_eq, jsMod,
      jsFloorDiv, Int.tmod, Int.fdiv]
  refine ⟨by decide, hmc, hres, ?_, by decide, ?_, by decide, by decide⟩
  · rw [hmc]
    decide
  · rw [hres]
    decide

/-- C2 (amended): for a current time in `[0, 1439]` and an angle in
`[0, 360)`, the resolved time of a minute-hand drag is
`(current hour × 60) + candidate`, adjusted by `+60` on a forward crossing
(previous minute `> 45`, candidate `< 15`) and `-60` on a backward crossing
(previous minute `< 15`, candidate `> 45`), all taken modulo 1440; when the
previous minute is 58 and the candidate is 3, the resolved hour is the
pre-drag hour plus one modulo 24. -/
theorem C2_minute_drag_crossing (t : ℤ) (angle : ℚ)
    (h0 : 0 ≤ t) (h1 : t < 1440) (ha0 : 0 ≤ angle) (ha1 : angle < 360) :
    resolveMinuteDrag t angle =
      (t / 60 * 60 + minuteCandidate angle +
        (if 45 < t % 60 ∧ minuteCandidate angle < 15 then 60
         else if t % 60 < 15 ∧ 45 < minuteCandidate angle then -60
         else 0)) % 1440 ∧
    (t % 60 = 58 → minuteCandidate angle = 3 →
      resolveMinuteDrag t angle / 60 = (t / 60 + 1) % 24) := by
  obtain ⟨hc0, hc1⟩ := minuteCandidate_mem angle ha0 ha1
  have hdiv : jsFloorDiv t 60 = t / 60 :=
    jsFloorDiv_eq_ediv t 60 (by norm_num)
  have hmod : jsMod t 60 = t % 60 :=
    jsMod_eq_emod t 60 h0 (by norm_num)
  have hres : resolveMinuteDrag t angle =
      (t / 60 * 60 + minuteCandidate angle +
        (if 45 < t % 60 ∧ minuteCandidate angle < 15 then 60
         else if t % 60 < 15 ∧ 45 < minuteCandidate angle then -60
         else 0)) % 1440 := by
    simp only [resolveMinuteDrag, hdiv, hmod]
    split_ifs <;> omega
  refine ⟨hres, ?_⟩
  intro h58 hc3
  rw [hres, hc3]
  rw [hc3] at hc0 hc1
  rw [if_pos (by omega : 45 < t % 60 ∧ (3 : ℤ) < 15)]
  omega

/-- C2 witness: at 10:58 with drag angle 18° (candidate minute 3), the
resolved time satisfies the amended modulo characterization and its hour is
`(10 + 1) % 24 = 11`. -/
theorem C2_minute_drag_witness :
    (resolveMinuteDrag 658 18 =
      ((658 : ℤ) / 60 * 60 + minuteCandidate 18 +
        (if 45 < (658 : ℤ) % 60 ∧ minuteCandidate 18 < 15 then 60
         else if (658 : ℤ) % 60 < 15 ∧ 45 < minuteCandidate 18 then -60
         else 0)) % 1440) ∧
    ((658 : ℤ) % 60 = 58 → minuteCandidate 18 = 3 →
      resolveMinuteDrag 658 18 / 60 = ((658 : ℤ) / 60 + 1) % 24) :=
  C2_minute_drag_crossing 658 18 (by decide) (by decide) (by decide)
    (by decide)

/-- C6: from any current time in `[0, 1439]` and any pointer angle in
`[0, 360)`, both the minute-hand drag (crossing adjustment included) and the
hour-hand drag (PM offset included) resolve to a total-minutes value inside
`[0, 1439]`. -/
theorem C6_drag_keeps_range (t : ℤ) (angle : ℚ)
    (h0 : 0 ≤ t) (h1 : t < 1440) (ha0 : 0 ≤ angle) (ha1 : angle < 360) :
    (0 ≤ resolveMinuteDrag t angle ∧ resolveMinuteDrag t angle < 1440) ∧
    (0 ≤ resolveHourDrag t angle ∧ resolveHourDrag t angle < 1440) := by
  obtain ⟨hc0, hc1⟩ := minuteCandidate_mem angle ha0 ha1
  have hdiv : jsFloorDiv t 60 = t / 60 :=
    jsFloorDiv_eq_ediv t 60 (by norm_num)
  have hmod : jsMod t 60 = t % 60 :=
    jsMod_eq_emod t 60 h0 (by norm_num)
  constructor
  · simp only [resolveMinuteDrag, hdiv, hmod]
    split_ifs <;> omega
  · have hr0 : 0 ≤ round (angle * 2) :=
      round_nonneg_of_nonneg _ (by positivity)
    have hr1 : round (angle * 2) ≤ 720 :=
      round_le_of_lt_intCast _ 720 (by push_cast; linarith)
    simp only [resolveHourDrag]
    split_ifs <;> omega

/-- C6 witness: the range invariant at time 10:10 and angle 18°. -/
theorem C6_drag_keeps_range_witness :
    ((0 ≤ resolveMinuteDrag 610 18 ∧ resolveMinuteDrag 610 18 < 1440) ∧
      (0 ≤ resolveHourDrag 610 18 ∧ resolveHourDrag 610 18 < 1440)) :=
  C6_drag_keeps_range 610 18 (by decide) (by decide) (by decide) (by decide)

/-- C7: for every pointer position, the pointer-to-angle mapping equals the
arctangent `atan2 (y - CY) (x - CX)` converted to degrees and rotated by
+90°, wrapped by adding 360 when negative, and the returned angle lies in
`[0, 360)`.  (Proved for all positions, the center included, so in
particular for every position different from the center.) -/
theorem C7_pointer_angle (x y : ℝ) :
    getPointerAngle x y =
      (if atan2 (y - CY) (x - CX) * (180 / Real.pi) + 90 < 0 then
        atan2 (y - CY) (x - CX) * (180 / Real.pi) + 90 + 360
      else atan2 (y - CY) (x - CX) * (180 / Real.pi) + 90) ∧
    0 ≤ getPointerAngle x y ∧ getPointerAngle x y < 360 := by
  refine ⟨rfl, ?_⟩
  have hpi : (0 : ℝ) < Real.pi := Real.pi_pos
  have harg1 : -Real.pi < atan2 (y - CY) (x - CX) :=
    Complex.neg_pi_lt_arg _
  have harg2 : atan2 (y - CY) (x - CX) ≤ Real.pi :=
    Complex.arg_le_pi _
  have hscale : (0 : ℝ) < 180 / Real.pi := by positivity
  have hub : atan2 (y - CY) (x - CX) * (180 / Real.pi) ≤ 180 := by
    have := mul_le_mul_of_nonneg_right harg2 (le_of_lt hscale)
    calc atan2 (y - CY) (x - CX) * (180 / Real.pi)
        ≤ Real.pi * (180 / Real.pi) := this
      _ = 180 := by field_simp
  have hlb : -180 < atan2 (y - CY) (x - CX) * (180 / Real.pi) := by
    have := mul_lt_mul_of_pos_right harg1 hscale
    calc (-180 : ℝ) = -Real.pi * (180 / Real.pi) := by
          field_simp
          ring
      _ < atan2 (y - CY) (x - CX) * (180 / Real.pi) := this
  unfold getPointerAngle
  split_ifs with h
  · constructor
    · linarith
    · linarith
  · constructor
    · linarith
    · linarith

/-- C9 counterexample: the claimed invariant "never two requests in flight"
fails on a reachable state: clicking "Challenge Me!", then "Play & Explore"
(which resets the mode but not the loading flag or the in-flight request),
then "Challenge Me!" again starts a second question request while the first
is still outstanding. -/
theorem C9_counterexample :
    ¬ ∀ s : AppState, Reachable s →
        s.pendingQuestion + s.pendingEval ≤ 1 := by
  intro hclaim
  have hreach : Reachable (run
      [Event.clickChallenge, Event.clickExplore, Event.clickChallenge]) :=
    ⟨[Event.clickChallenge, Event.clickExplore, Event.clickChallenge], rfl⟩
  have hval : AppState.pendingQuestion (run
      [Event.clickChallenge, Event.clickExplore, Event.clickChallenge]) =
        2 := by decide
  have hle := hclaim _ hreach
  omega

/-- C9 (amended): the guard on starting a question request is the mode
flag, not the loading flag — clicking "Challenge Me!" is a no-op whenever
the mode is already QUIZ — and the submit action is a no-op whenever the
loading flag is set; since exiting the quiz resets the mode without
clearing the loading flag or the in-flight request, a second question
request can start while one is outstanding. -/
theorem C9_request_guards (s : AppState) :
    (s.mode = GameMode.QUIZ → step s Event.clickChallenge = s) ∧
    (s.isLoading = true → step s Event.clickSubmit = s) := by
  constructor
  · intro h
    simp [step, h]
  · intro h
    simp only [step]
    rw [if_neg]
    rintro ⟨-, -, -, hfalse⟩
    rw [h] at hfalse
    cases hfalse

/-- C9 witness: in the state right after starting a quiz (mode QUIZ, loading
set), both "Challenge Me!" and "Check Answer" are no-ops. -/
theorem C9_request_guards_witness :
    step (startQuiz initState) Event.clickChallenge = startQuiz initState ∧
    step (startQuiz initState) Event.clickSubmit = startQuiz initState :=
  ⟨(C9_request_guards (startQuiz initState)).1 rfl,
    (C9_request_guards (startQuiz initState)).2 rfl⟩

/-- C10: every quiz lifecycle operation — both quiz buttons, answer
submission, hint display, exiting the quiz, and the resumptions of the two
asynchronous requests — leaves the clock time unchanged; only the `drag`
event (`handleTimeChange`) modifies `totalMinutes`. -/
theorem C10_quiz_ops_preserve_time (s : AppState) :
    (step s Event.clickExplore).totalMinutes = s.totalMinutes ∧
    (step s Event.clickChallenge).totalMinutes = s.totalMinutes ∧
    (step s Event.clickSubmit).totalMinutes = s.totalMinutes ∧
    (step s Event.clickNext).totalMinutes = s.totalMinutes ∧
    (step s Event.clickHint).totalMinutes = s.totalMinutes ∧
    (∀ result, (step s (Event.questionResolve result)).totalMinutes =
      s.totalMinutes) ∧
    (∀ msg, (step s (Event.evalResolve msg)).totalMinutes =
      s.totalMinutes) ∧
    (startQuiz s).totalMinutes = s.totalMinutes ∧
    (submitAnswer s).totalMinutes = s.totalMinutes ∧
    (exitQuiz s).totalMinutes = s.totalMinutes ∧
    (∀ m, (handleTimeChange s m).totalMinutes = m) := by
  have hsubmit : (submitAnswer s).totalMinutes = s.totalMinutes := by
    rcases hq : s.currentQuestion with - | q
    · simp [submitAnswer, hq]
    · simp only [submitAnswer, hq]
      split_ifs
      · rfl
      · rfl
  refine ⟨rfl, ?_, ?_, ?_, ?_, ?_, ?_, rfl, hsubmit, rfl, fun _ => rfl⟩
  · simp only [step]
    split_ifs
    · rfl
    · rfl
  · simp only [step]
    split_ifs
    · exact hsubmit
    · rfl
  · simp only [step]
    split_ifs
    · rfl
    · rfl
  · simp only [step]
    rcases hq : s.currentQuestion with - | q
    · rfl
    · split_ifs
      · rfl
      · rfl
  · intro result
    simp only [step]
    split_ifs
    · rfl
    · rfl
  · intro msg
    simp only [step]
    split_ifs
    · rfl
    · rfl

end TimeTots
